import Mathlib

/-!
Shallow embedding of the calculation engine of the pycalorie repository
(`pycalorie/services/calculator_service.py`).  Python floats are modelled as
exact rationals; Python `int(x)` is truncation toward zero; Python
`round(x, 1)` is round-half-to-even at one decimal; Python dicts read with
`d[k]` are association lists whose failed lookup is a `keyError`; the
division-by-zero condition in `calculate_bmi` is the `invalidInput` error of
the spec's error taxonomy.
-/

namespace PyCalorie

/-- Python `str.lower()` restricted to the ASCII range, which is all the
engine's lookup keys use. -/
def pyLower (s : String) : String := String.mk (s.data.map Char.toLower)

/-- Round-half-to-even to the nearest integer, the tie-breaking rule of
Python's built-in `round`. -/
def roundHalfEven (q : ℚ) : ℤ :=
  let f := ⌊q⌋
  let r := q - f
  if r < 1/2 then f
  else if 1/2 < r then f + 1
  else if f % 2 = 0 then f else f + 1

/-- Python `round(x, 1)`: round to one decimal place. -/
def round1 (q : ℚ) : ℚ := (roundHalfEven (q * 10) : ℚ) / 10

/-- Python `int(x)` on a float: truncation toward zero. -/
def ratTrunc (q : ℚ) : ℤ := if q < 0 then -⌊-q⌋ else ⌊q⌋

/-- `calculate_bmr` (calculator_service.py:8): Mifflin-St Jeor BMR with a
case-insensitive gender match and a mean-of-both fallback. -/
def calculate_bmr (weight_kg height_cm age : ℚ) (gender : String) : ℚ :=
  let gender_normalized := pyLower gender
  if gender_normalized ∈ ["male", "m"] then
    (10 * weight_kg) + (25/4 * height_cm) - (5 * age) + 5
  else if gender_normalized ∈ ["female", "f"] then
    (10 * weight_kg) + (25/4 * height_cm) - (5 * age) - 161
  else
    let male_bmr := (10 * weight_kg) + (25/4 * height_cm) - (5 * age) + 5
    let female_bmr := (10 * weight_kg) + (25/4 * height_cm) - (5 * age) - 161
    (male_bmr + female_bmr) / 2

/-- The `activity_multipliers` dict of `calculate_tdee`
(calculator_service.py:65). -/
def activity_multipliers : List (String × ℚ) :=
  [("sedentary", 6/5), ("light", 11/8), ("moderate", 31/20),
   ("active", 69/40), ("very_active", 19/10)]

/-- `activity_multipliers.get(activity_level.lower(), 1.55)`
(calculator_service.py:74). -/
def activityMult (activity_level : String) : ℚ :=
  ((activity_multipliers.lookup (pyLower activity_level)).getD (31/20))

/-- `calculate_tdee` (calculator_service.py:40): BMR times activity
multiplier, converted with Python `int(...)`. -/
def calculate_tdee (weight_kg height_cm age : ℚ) (gender activity_level : String) : ℤ :=
  let bmr := calculate_bmr weight_kg height_cm age gender
  let multiplier := activityMult activity_level
  ratTrunc (bmr * multiplier)

/-- The engine's error kinds: the spec's `InvalidInput` (division by zero in
`calculate_bmi`), and a Python `KeyError` escaping a dict subscript. -/
inductive EngineError
  | invalidInput
  | keyError (key : String)
deriving DecidableEq, Repr

/-- `calculate_bmi` (calculator_service.py:82): `weight / (height/100)**2`,
rounded to one decimal; the zero divisor surfaces as an error. -/
def calculate_bmi (weight_kg height_cm : ℚ) : Except EngineError ℚ :=
  let height_m := height_cm / 100
  if height_m ^ 2 = 0 then Except.error EngineError.invalidInput
  else Except.ok (round1 (weight_kg / height_m ^ 2))

/-- `get_bmi_category` (calculator_service.py:101). -/
def get_bmi_category (bmi : ℚ) : String :=
  if bmi < 37/2 then "Underweight"
  else if 37/2 ≤ bmi ∧ bmi < 25 then "Normal weight"
  else if 25 ≤ bmi ∧ bmi < 30 then "Overweight"
  else "Obese"

/-- The `goal_adjustments` dict of `calculate_calorie_goal_for_goal`
(calculator_service.py:138). -/
def goal_adjustments : List (String × ℤ) :=
  [("weight_loss", -500), ("weight_gain", 300), ("muscle_gain", 500),
   ("maintain", 0), ("general_health", 0)]

/-- `calculate_calorie_goal_for_goal` (calculator_service.py:121): TDEE plus
a goal offset, floored at 1200.  The dict lookup uses the goal string as
given, with no lowercasing. -/
def calculate_calorie_goal_for_goal (tdee : ℤ) (health_goal : String) : ℤ :=
  let adjustment := (goal_adjustments.lookup health_goal).getD 0
  let calorie_goal := tdee + adjustment
  max 1200 calorie_goal

/-- Result shape of the macro split: `{'protein_g', 'carbs_g', 'fat_g'}`. -/
structure Macros where
  protein_g : ℚ
  carbs_g : ℚ
  fat_g : ℚ
deriving DecidableEq, Repr

/-- Python `d[k]` on a dict: the value, or a `KeyError` naming the key. -/
def dictGet (d : List (String × ℚ)) (k : String) : Except EngineError ℚ :=
  match d.lookup k with
  | some v => Except.ok v
  | none => Except.error (EngineError.keyError k)

/-- The default ratio dict of `calculate_macros`
(calculator_service.py:172). -/
def defaultRatio : List (String × ℚ) :=
  [("protein", 3/10), ("carbs", 2/5), ("fat", 3/10)]

/-- `calculate_macros` (calculator_service.py:153): splits the calorie goal
into gram targets.  A caller-supplied ratio dict is subscripted directly, so
a missing key escapes as a `KeyError`. -/
def calculateMacros (calorie_goal : ℚ) (ratio? : Option (List (String × ℚ))) :
    Except EngineError Macros := do
  let ratio := ratio?.getD defaultRatio
  let protein_calories := calorie_goal * (← dictGet ratio "protein")
  let carbs_calories := calorie_goal * (← dictGet ratio "carbs")
  let fat_calories := calorie_goal * (← dictGet ratio "fat")
  return ⟨round1 (protein_calories / 4), round1 (carbs_calories / 4),
          round1 (fat_calories / 9)⟩

/-- `calculate_nutrition_percentage` (calculator_service.py:237): guarded
percentage of goal consumed. -/
def calculate_nutrition_percentage (consumed goal : ℚ) : ℚ :=
  if goal = 0 then 0
  else round1 (consumed / goal * 100)

/-- The dict lookup in `activityMult` agrees with an explicit case analysis
over the five table keys, with `31/20` for every other string. -/
lemma activityMult_eq_cases (act : String) :
    activityMult act =
      (if pyLower act = "sedentary" then 6/5
       else if pyLower act = "light" then 11/8
       else if pyLower act = "moderate" then 31/20
       else if pyLower act = "active" then 69/40
       else if pyLower act = "very_active" then 19/10
       else 31/20) := by
  unfold activityMult
  by_cases h1 : pyLower act = "sedentary"
  · rw [h1]; rfl
  by_cases h2 : pyLower act = "light"
  · rw [h2]; rfl
  by_cases h3 : pyLower act = "moderate"
  · rw [h3]; rfl
  by_cases h4 : pyLower act = "active"
  · rw [h4]; rfl
  by_cases h5 : pyLower act = "very_active"
  · rw [h5]; rfl
  simp [activity_multipliers, List.lookup, h1, h2, h3, h4, h5,
    beq_eq_false_iff_ne.mpr h1, beq_eq_false_iff_ne.mpr h2,
    beq_eq_false_iff_ne.mpr h3, beq_eq_false_iff_ne.mpr h4,
    beq_eq_false_iff_ne.mpr h5]

/-- Sanity check against the spec's worked example: `computeTDEE(70, 175,
30, "male", "moderate")` is `int(1648.75 * 1.55) = int(2555.5625) = 2555`. -/
lemma calculate_tdee_spec_example : calculate_tdee 70 175 30 "male" "moderate" = 2555 := by
  norm_num +decide [calculate_tdee, calculate_bmr, ratTrunc,
    show activityMult "moderate" = 31/20 from rfl]

/-- Sanity check against the spec's worked example: `computeBMI(70, 175)`
is `22.9`. -/
lemma calculate_bmi_spec_example : calculate_bmi 70 175 = Except.ok (229/10) := by
  norm_num +decide [calculate_bmi, round1, roundHalfEven]

/-- Claim C1: `calculate_bmr` returns the male Mifflin-St Jeor formula when
the lowercased gender is `male` or `m`, the female formula when it is
`female` or `f`, and the arithmetic mean of the two formulas for every other
gender string; matching is case-insensitive. -/
theorem calculate_bmr_gender_cases (w h a : ℚ) (g : String) :
    (pyLower g = "male" ∨ pyLower g = "m" →
      calculate_bmr w h a g = 10*w + 25/4*h - 5*a + 5) ∧
    (pyLower g = "female" ∨ pyLower g = "f" →
      calculate_bmr w h a g = 10*w + 25/4*h - 5*a - 161) ∧
    (¬(pyLower g = "male" ∨ pyLower g = "m") →
     ¬(pyLower g = "female" ∨ pyLower g = "f") →
      calculate_bmr w h a g =
        ((10*w + 25/4*h - 5*a + 5) + (10*w + 25/4*h - 5*a - 161)) / 2) := by
  unfold calculate_bmr
  simp only [List.mem_cons, List.not_mem_nil, or_false, List.mem_singleton]
  refine ⟨fun hg => ?_, fun hg => ?_, fun hg hg2 => ?_⟩
  · rw [if_pos hg]
  · have hm : ¬(pyLower g = "male" ∨ pyLower g = "m") := by
      rintro (h1 | h1) <;> rcases hg with h2 | h2 <;> rw [h1] at h2 <;>
        exact absurd h2 (by decide)
    rw [if_neg hm, if_pos hg]
  · rw [if_neg hg, if_neg hg2]

/-- Witness for C1 at concrete genders `MALE`, `F` and `other`. -/
theorem calculate_bmr_gender_cases_witness :
    calculate_bmr 70 175 30 "MALE" = 10*70 + 25/4*175 - 5*30 + 5 ∧
    calculate_bmr 70 175 30 "F" = 10*70 + 25/4*175 - 5*30 - 161 ∧
    calculate_bmr 60 160 40 "other" =
      ((10*60 + 25/4*160 - 5*40 + 5) + (10*60 + 25/4*160 - 5*40 - 161)) / 2 :=
  ⟨(calculate_bmr_gender_cases 70 175 30 "MALE").1 (Or.inl (by decide)),
   (calculate_bmr_gender_cases 70 175 30 "F").2.1 (Or.inr (by decide)),
   (calculate_bmr_gender_cases 60 160 40 "other").2.2 (by decide) (by decide)⟩

/-- Claim C2: `calculate_calorie_goal_for_goal` returns
`max 1200 (tdee + offset)` with the documented offset per goal string and
offset `0` for unrecognized goals, and the result is never below 1200. -/
theorem calculate_calorie_goal_offset_clamp (tdee : ℤ) (goal : String) :
    calculate_calorie_goal_for_goal tdee goal =
      max 1200 (tdee +
        (if goal = "weight_loss" then -500
         else if goal = "weight_gain" then 300
         else if goal = "muscle_gain" then 500
         else if goal = "maintain" then 0
         else if goal = "general_health" then 0
         else 0)) ∧
    1200 ≤ calculate_calorie_goal_for_goal tdee goal := by
  constructor
  · by_cases h1 : goal = "weight_loss"
    · subst h1; rfl
    by_cases h2 : goal = "weight_gain"
    · subst h2; rfl
    by_cases h3 : goal = "muscle_gain"
    · subst h3; rfl
    by_cases h4 : goal = "maintain"
    · subst h4; rfl
    by_cases h5 : goal = "general_health"
    · subst h5; rfl
    simp [calculate_calorie_goal_for_goal, goal_adjustments, List.lookup,
      h1, h2, h3, h4, h5,
      beq_eq_false_iff_ne.mpr h1, beq_eq_false_iff_ne.mpr h2,
      beq_eq_false_iff_ne.mpr h3, beq_eq_false_iff_ne.mpr h4,
      beq_eq_false_iff_ne.mpr h5]
  · exact le_max_left _ _

/-- Claim C10: the health-goal lookup is case-sensitive: a goal string whose
lowercase form is a recognized key but which is not itself a key gets offset
`0`, i.e. `max 1200 tdee`. -/
theorem calculate_calorie_goal_case_sensitive (tdee : ℤ) (goal : String)
    (_hlow : (goal_adjustments.lookup (pyLower goal)).isSome = true)
    (hexact : goal_adjustments.lookup goal = none) :
    calculate_calorie_goal_for_goal tdee goal = max 1200 tdee := by
  unfold calculate_calorie_goal_for_goal
  rw [hexact]
  simp

/-- Witness for C10 at `Weight_Loss`: the offset of `weight_loss` is not
applied. -/
theorem calculate_calorie_goal_case_sensitive_witness :
    (goal_adjustments.lookup (pyLower "Weight_Loss")).isSome = true ∧
    goal_adjustments.lookup "Weight_Loss" = none ∧
    calculate_calorie_goal_for_goal 2000 "Weight_Loss" = max 1200 2000 :=
  ⟨by decide, by decide,
   calculate_calorie_goal_case_sensitive 2000 "Weight_Loss" (by decide) (by decide)⟩

/-- Claim C4: `calculate_tdee` is the BMR of `calculate_bmr` times the
activity multiplier (case-insensitive lookup, `31/20` default), the product
truncated toward zero. -/
theorem calculate_tdee_formula (w h a : ℚ) (g act : String) :
    calculate_tdee w h a g act =
      ratTrunc (calculate_bmr w h a g *
        (if pyLower act = "sedentary" then 6/5
         else if pyLower act = "light" then 11/8
         else if pyLower act = "moderate" then 31/20
         else if pyLower act = "active" then 69/40
         else if pyLower act = "very_active" then 19/10
         else 31/20)) := by
  unfold calculate_tdee
  rw [activityMult_eq_cases]

/-- Claim C5 counterexample: at weight 0, height 0, age 2, gender `male`,
activity `moderate`, the BMR times multiplier is `-31/4`; the code returns
its truncation toward zero `-7`, not its floor `-8`. -/
theorem calculate_tdee_not_floor_counterexample :
    calculate_tdee 0 0 2 "male" "moderate" = -7 ∧
    ⌊calculate_bmr 0 0 2 "male" * activityMult "moderate"⌋ = -8 ∧
    calculate_tdee 0 0 2 "male" "moderate" ≠
      ⌊calculate_bmr 0 0 2 "male" * activityMult "moderate"⌋ := by
  refine ⟨?_, ?_, ?_⟩ <;>
    norm_num +decide [calculate_tdee, calculate_bmr, ratTrunc,
      show activityMult "moderate" = 31/20 from rfl]

/-- Claim C5 (amended): `calculate_tdee` is the truncation toward zero of
BMR times multiplier; when that product is nonnegative the truncation
coincides with the floor. -/
theorem calculate_tdee_floor_of_nonneg (w h a : ℚ) (g act : String)
    (hnn : 0 ≤ calculate_bmr w h a g * activityMult act) :
    calculate_tdee w h a g act =
      ⌊calculate_bmr w h a g * activityMult act⌋ ∧
    calculate_tdee w h a g act =
      ratTrunc (calculate_bmr w h a g * activityMult act) := by
  constructor
  · unfold calculate_tdee ratTrunc
    rw [if_neg (not_lt.mpr hnn)]
  · rfl

/-- Witness for amended C5 at the spec's own example input. -/
theorem calculate_tdee_floor_of_nonneg_witness :
    0 ≤ calculate_bmr 70 175 30 "male" * activityMult "moderate" ∧
    calculate_tdee 70 175 30 "male" "moderate" =
      ⌊calculate_bmr 70 175 30 "male" * activityMult "moderate"⌋ := by
  have hnn : 0 ≤ calculate_bmr 70 175 30 "male" * activityMult "moderate" := by
    norm_num +decide [calculate_bmr, show activityMult "moderate" = 31/20 from rfl]
  exact ⟨hnn, (calculate_tdee_floor_of_nonneg 70 175 30 "male" "moderate" hnn).1⟩

/-- Claim C9: the percentage helper returns 0 when the goal is 0, for any
consumed amount, and otherwise `(consumed/goal)*100` rounded to one
decimal. -/
theorem calculate_nutrition_percentage_guard (consumed goal : ℚ) :
    calculate_nutrition_percentage consumed 0 = 0 ∧
    (goal ≠ 0 → calculate_nutrition_percentage consumed goal =
      round1 (consumed / goal * 100)) := by
  constructor
  · rfl
  · intro hg
    unfold calculate_nutrition_percentage
    rw [if_neg hg]

/-- Witness for C9 at a negative consumed amount and at a nonzero goal. -/
theorem calculate_nutrition_percentage_guard_witness :
    calculate_nutrition_percentage (-5) 0 = 0 ∧
    calculate_nutrition_percentage 150 200 = round1 (150 / 200 * 100) :=
  ⟨(calculate_nutrition_percentage_guard (-5) 1).1,
   (calculate_nutrition_percentage_guard 150 200).2 (by norm_num)⟩

/-- Claim C3 counterexample: `invalidInput` is not the only error the
engine ever raises: `calculateMacros` on a ratio mapping holding only the
`carbs` key raises a `KeyError` for `protein`, a different error kind. -/
theorem engine_error_not_only_invalid_input :
    calculateMacros 1500 (Option.some [("carbs", 2/5)]) =
      Except.error (EngineError.keyError "protein") ∧
    EngineError.keyError "protein" ≠ EngineError.invalidInput :=
  ⟨rfl, by decide⟩

/-- Claim C3 (amended): `calculate_bmi` at height 0 surfaces the
`invalidInput` error instead of a numeric value; it errors only at height 0
and only with `invalidInput`, and succeeds for every nonzero height.  This
is the only error `calculate_bmi` raises, but not the only error of the
engine: a partial macro mapping raises a `KeyError`. -/
theorem calculate_bmi_zero_height_error (w h : ℚ) :
    calculate_bmi w 0 = Except.error EngineError.invalidInput ∧
    (∀ e, calculate_bmi w h = Except.error e →
      h = 0 ∧ e = EngineError.invalidInput) ∧
    (h ≠ 0 → ∃ v, calculate_bmi w h = Except.ok v) := by
  refine ⟨?_, ?_, ?_⟩
  · unfold calculate_bmi
    norm_num
  · intro e he
    unfold calculate_bmi at he
    by_cases hz : ((h : ℚ)/100) ^ 2 = 0
    · rw [if_pos hz] at he
      have hh : h = 0 := by
        have := pow_eq_zero_iff (n := 2) (by norm_num) |>.mp hz
        field_simp at this
        exact this
      refine ⟨hh, ?_⟩
      cases he
      rfl
    · rw [if_neg hz] at he
      exact absurd he (by simp)
  · intro hne
    unfold calculate_bmi
    rw [if_neg (pow_ne_zero 2 (div_ne_zero hne (by norm_num)))]
    exact ⟨_, rfl⟩

/-- Witness for C3 at weight 70: error at height 0, success at height 175. -/
theorem calculate_bmi_zero_height_error_witness :
    calculate_bmi 70 0 = Except.error EngineError.invalidInput ∧
    (∃ v, calculate_bmi 70 175 = Except.ok v) :=
  ⟨(calculate_bmi_zero_height_error 70 0).1,
   (calculate_bmi_zero_height_error 70 175).2.2 (by norm_num)⟩

/-- Claim C6: `get_bmi_category` realises the four lower-inclusive WHO
bands, and in particular maps `18.5` to `Normal weight` and `18.49` to
`Underweight`. -/
theorem get_bmi_category_boundaries (bmi : ℚ) :
    (get_bmi_category bmi = "Underweight" ↔ bmi < 37/2) ∧
    (get_bmi_category bmi = "Normal weight" ↔ 37/2 ≤ bmi ∧ bmi < 25) ∧
    (get_bmi_category bmi = "Overweight" ↔ 25 ≤ bmi ∧ bmi < 30) ∧
    (get_bmi_category bmi = "Obese" ↔ 30 ≤ bmi) ∧
    get_bmi_category (37/2) = "Normal weight" ∧
    get_bmi_category (1849/100) = "Underweight" := by
  refine ⟨?_, ?_, ?_, ?_, by norm_num [get_bmi_category],
    by norm_num [get_bmi_category]⟩ <;>
  · unfold get_bmi_category
    split_ifs with h1 h2 h3 <;> try simp_all +decide
    all_goals intros; linarith

/-- Claim C7: with no ratio mapping supplied, `calculateMacros` uses the
default fractions 0.30/0.40/0.30, converts with 4 cal/g for protein and
carbs and 9 cal/g for fat, rounds each to one decimal, and in particular
maps a 2000-calorie goal to 150.0 g protein, 200.0 g carbs, 66.7 g fat. -/
theorem calculateMacros_default (cg : ℚ) :
    calculateMacros cg Option.none =
      Except.ok ⟨round1 (cg * (3/10) / 4), round1 (cg * (2/5) / 4),
                 round1 (cg * (3/10) / 9)⟩ ∧
    calculateMacros 2000 Option.none =
      Except.ok ⟨150, 200, 667/10⟩ := by
  refine ⟨rfl, ?_⟩
  rw [show (calculateMacros 2000 Option.none : Except EngineError Macros) =
      Except.ok ⟨round1 (2000 * (3/10) / 4), round1 (2000 * (2/5) / 4),
                 round1 (2000 * (3/10) / 9)⟩ from rfl]
  norm_num [round1, roundHalfEven, Macros.mk.injEq]

/-- Claim C8 counterexample: a caller-supplied mapping holding only the
`protein` key does not complete without error: the `carbs` subscript
escapes as a `KeyError`, and the documented defaults are not merged in. -/
theorem calculateMacros_partial_override_key_error :
    calculateMacros 2000 (Option.some [("protein", 1/2)]) =
      Except.error (EngineError.keyError "carbs") := rfl

/-- Claim C8 (amended): for every calorie goal and every mapping that
supplies all three fractions, `calculateMacros` completes without error and
uses the fractions exactly as given, with no sum-to-one validation. -/
theorem calculateMacros_full_override (cg p c f : ℚ) :
    calculateMacros cg (Option.some [("protein", p), ("carbs", c), ("fat", f)]) =
      Except.ok ⟨round1 (cg * p / 4), round1 (cg * c / 4), round1 (cg * f / 9)⟩ :=
  rfl

end PyCalorie
